import Mathlib

/-!
# sqmt/config: source resolution and precedence

A shallow embedding of `config.go`.  The package-level defaults become an explicit
`Registry` value that the setters transform; the `*viper.Viper` store, which the
package only drives through method calls, is the sequence of calls made on it; the
outcomes of the fallible store methods and the standard-library functions the
package calls (`os.Getenv`, `os.Getwd`, `path.Join`, `unicode.ToLower`) are the
fields of a `World`.
-/

namespace Config

/-- A non-nil Go `error` value (its message). -/
abbrev Error := String

/-- A non-nil `func(v *viper.Viper)` value, identified by a tag. -/
structure Handler where
  id : Nat
deriving DecidableEq, Repr

/-- The package-level variables of `config.go` (lines 16-31). -/
structure Registry where
  envFileKey : String
  configName : String
  configType : String
  configFile : String
  searchPath : List String
  envPrefix : String
  watchHandler : Option Handler
deriving DecidableEq, Repr

/-- The zero values the package variables have at program start. -/
def Registry.zero : Registry :=
  { envFileKey := "", configName := "", configType := "", configFile := "",
    searchPath := [], envPrefix := "", watchHandler := none }

/-- The struct `Option` of `config.go` (lines 82-98); its field `Type` is `Typ` here. -/
structure ConfigOption where
  Provider : String
  Name : String
  Typ : String
  File : String
  SearchPath : List String
  Env : Bool
  EnvPrefix : String
  EndPoint : String
  SecretKey : String
  Watch : Bool
  IsRemote : Bool
  RemoteProvider : String
  RemoteEndpoint : String
  WatchHandler : Option Handler
deriving DecidableEq, Repr

/-- The value `&Option{}`: every field at its zero value. -/
def ConfigOption.zero : ConfigOption :=
  { Provider := "", Name := "", Typ := "", File := "", SearchPath := [], Env := false,
    EnvPrefix := "", EndPoint := "", SecretKey := "", Watch := false, IsRemote := false,
    RemoteProvider := "", RemoteEndpoint := "", WatchHandler := none }

/-- One effect `config.go` has on the store it builds: a method call on the
`*viper.Viper` value, or the start of the polling goroutine of `remoteWatch`. -/
inductive Call where
  | SetConfigFile (f : String)
  | AddConfigPath (s : String)
  | SetConfigName (n : String)
  | SetConfigType (t : String)
  | ReadInConfig
  | AddSecureRemoteProvider (provider endpoint path secretkey : String)
  | AddRemoteProvider (provider endpoint path : String)
  | ReadRemoteConfig
  | MergeConfig (content : String)
  | WatchConfig
  | OnConfigChange (fn : Handler)
  | GoRemoteWatch (fn : Option Handler)
  | AutomaticEnv
  | SetEnvPrefix (p : String)
deriving DecidableEq, Repr

/-- The store: the calls made on it since `viper.New()`, oldest first. -/
abbrev Viper := List Call

/-- The value `viper.New()` returns. -/
def Viper.new : Viper := []

/-- What lies outside the package: the process environment, the working directory,
the standard-library functions used, and the results of the store's fallible
methods (each may depend on the store as configured so far). -/
structure World where
  getenv : String → String
  getwd : String
  join : String → String → String
  lower : Char → Char
  readInConfig : Viper → Option Error
  mergeConfig : Viper → String → Option Error
  addRemoteProvider : Viper → String → String → String → Option Error
  addSecureRemoteProvider : Viper → String → String → String → String → Option Error
  readRemoteConfig : Viper → Option Error

/-- The function `strings.ToLower`: the lower-case mapping applied to every character. -/
def ToLower (w : World) (s : String) : String :=
  String.mk (s.data.map w.lower)

/-! ## The setters (lines 33-80) -/

def SetEnvFileKey (val : String) (r : Registry) : Registry :=
  if r.envFileKey = "" then { r with envFileKey := val } else r

def SetConfigName (name : String) (r : Registry) : Registry :=
  if r.configName = "" then { r with configName := name } else r

def SetConfigType (typ : String) (r : Registry) : Registry :=
  if r.configType = "" then { r with configType := typ } else r

def SetConfigFile (filename : String) (r : Registry) : Registry :=
  if r.configFile = "" then { r with configFile := filename } else r

def SetSearchPath (paths : List String) (r : Registry) : Registry :=
  if r.searchPath.length = 0 then { r with searchPath := paths } else r

def SetEnvPrefix (pfx : String) (r : Registry) : Registry :=
  if r.envPrefix = "" then { r with envPrefix := pfx } else r

def SetWatchHandler (handler : Option Handler) (r : Registry) : Registry :=
  if r.watchHandler = none then { r with watchHandler := handler } else r

/-- One call of a setter, with its argument. -/
inductive SetterCall where
  | EnvFileKey (val : String)
  | ConfigName (name : String)
  | ConfigType (typ : String)
  | ConfigFile (filename : String)
  | SearchPath (paths : List String)
  | EnvPrefix (pfx : String)
  | WatchHandler (handler : Option Handler)
deriving DecidableEq, Repr

/-- The registry after one setter call. -/
def SetterCall.apply (c : SetterCall) (r : Registry) : Registry :=
  match c with
  | .EnvFileKey val => SetEnvFileKey val r
  | .ConfigName name => SetConfigName name r
  | .ConfigType typ => SetConfigType typ r
  | .ConfigFile filename => SetConfigFile filename r
  | .SearchPath paths => SetSearchPath paths r
  | .EnvPrefix pfx => SetEnvPrefix pfx r
  | .WatchHandler handler => SetWatchHandler handler r

/-- The registry after a sequence of setter calls, made in list order. -/
def runSetters (cs : List SetterCall) (r : Registry) : Registry :=
  cs.foldl (fun acc c => c.apply acc) r

/-! ## The getters of `Option` (lines 100-154) -/

def getConfigType (r : Registry) (o : ConfigOption) : String :=
  if o.Typ ≠ "" then o.Typ
  else if r.configType ≠ "" then r.configType
  else "yaml"

def getConfigName (r : Registry) (o : ConfigOption) : String :=
  if o.Name ≠ "" then o.Name
  else if r.configName ≠ "" then r.configName
  else "config"

def getConfigFile (w : World) (r : Registry) (o : ConfigOption) : String :=
  if o.File ≠ "" then o.File
  else if r.envFileKey ≠ "" ∧ w.getenv r.envFileKey ≠ "" then w.getenv r.envFileKey
  else ""

def getSearchPath (w : World) (r : Registry) (o : ConfigOption) : List String :=
  if o.SearchPath.length > 0 then o.SearchPath
  else if r.searchPath.length > 0 then r.searchPath
  else [w.getwd, w.join w.getwd "config"]

def getWatchHandler (r : Registry) (o : ConfigOption) : Option Handler :=
  if o.WatchHandler ≠ none then o.WatchHandler else r.watchHandler

/-! ## Watches and the environment overlay (lines 232-270) -/

/-- The function `fileWatch`: the callback is registered only for a non-nil handler. -/
def fileWatch (r : Registry) (v : Viper) (o : ConfigOption) : Viper :=
  let v1 := v ++ [Call.WatchConfig]
  match getWatchHandler r o with
  | some fn => v1 ++ [Call.OnConfigChange fn]
  | none => v1

/-- The function `remoteWatch`: starts the polling goroutine, which captures `fn`. -/
def remoteWatch (r : Registry) (v : Viper) (o : ConfigOption) : Viper :=
  v ++ [Call.GoRemoteWatch (getWatchHandler r o)]

/-- The function `env` (lines 264-270). -/
def env (v : Viper) (o : ConfigOption) : Viper :=
  if !o.Env then v
  else v ++ [Call.AutomaticEnv, Call.SetEnvPrefix o.EnvPrefix]

/-! ## The loaders (lines 181-230) -/

/-- The configuration `fileProvider` gives the store before reading: the resolved file
when there is one, the search path, name and type otherwise (lines 183-191). -/
def fileSetup (w : World) (r : Registry) (v : Viper) (o : ConfigOption) : Viper :=
  let f := getConfigFile w r o
  if f ≠ "" then v ++ [Call.SetConfigFile f]
  else
    (getSearchPath w r o).foldl (fun acc s => acc ++ [Call.AddConfigPath s]) v
      ++ [Call.SetConfigName (getConfigName r o)]
      ++ [Call.SetConfigType (getConfigType r o)]

def fileProvider (w : World) (r : Registry) (v : Viper) (o : ConfigOption) :
    Viper × Option Error :=
  let v1 := fileSetup w r v o
  let v2 := v1 ++ [Call.ReadInConfig]
  match w.readInConfig v1 with
  | some err => (v2, some err)
  | none => if o.Watch then (fileWatch r v2 o, none) else (v2, none)

def remoteProvider (w : World) (r : Registry) (v : Viper) (o : ConfigOption) :
    Viper × Option Error :=
  let reg : Viper × Option Error :=
    if o.SecretKey ≠ "" then
      (v ++ [Call.AddSecureRemoteProvider o.Provider o.EndPoint (getConfigFile w r o) o.SecretKey],
        w.addSecureRemoteProvider v o.Provider o.EndPoint (getConfigFile w r o) o.SecretKey)
    else
      (v ++ [Call.AddRemoteProvider o.Provider o.EndPoint (getConfigFile w r o)],
        w.addRemoteProvider v o.Provider o.EndPoint (getConfigFile w r o))
  match reg.2 with
  | some err => (reg.1, some err)
  | none =>
    let v1 := reg.1 ++ [Call.SetConfigType (getConfigType r o)]
    let v2 := v1 ++ [Call.ReadRemoteConfig]
    match w.readRemoteConfig v1 with
    | some err => (v2, some err)
    | none => if o.Watch then (remoteWatch r v2 o, none) else (v2, none)

def contentProvider (w : World) (r : Registry) (v : Viper) (o : ConfigOption) :
    Viper × Option Error :=
  let v1 := v ++ [Call.SetConfigType (getConfigType r o)]
  (v1 ++ [Call.MergeConfig o.File], w.mergeConfig v1 o.File)

/-! ## `New` (lines 156-179) -/

/-- The three loaders `New` can dispatch to. -/
inductive Loader where
  | file
  | content
  | remote
deriving DecidableEq, Repr

/-- The `switch` of `New` over the lower-cased provider. -/
def selectLoader (w : World) (o : ConfigOption) : Loader :=
  match ToLower w o.Provider with
  | "file" => Loader.file
  | "content" => Loader.content
  | "etcd" => Loader.remote
  | "consul" => Loader.remote
  | "firestore" => Loader.remote
  | _ => Loader.file

/-- The loader function behind each arm of the `switch`. -/
def Loader.run (l : Loader) (w : World) (r : Registry) (v : Viper) (o : ConfigOption) :
    Viper × Option Error :=
  match l with
  | .file => fileProvider w r v o
  | .content => contentProvider w r v o
  | .remote => remoteProvider w r v o

/-- The option `New` works with: the first argument when there is one and it is not
nil, a fresh `&Option{}` otherwise. -/
def firstOption (option : List (Option ConfigOption)) : ConfigOption :=
  match option with
  | some o :: _ => o
  | _ => ConfigOption.zero

/-- The function `New`.  The first component is the returned `*viper.Viper` (`none` for a
nil pointer), the second the returned `error`. -/
def New (w : World) (r : Registry) (option : List (Option ConfigOption)) :
    Option Viper × Option Error :=
  let o := firstOption option
  let v := Viper.new
  let res := (selectLoader w o).run w r v o
  match res.2 with
  | some err => (some res.1, some err)
  | none => (some (env res.1 o), none)

/-! ## Reading a sequence of setter calls as the spec words it -/

/-- The arguments passed to `SetEnvFileKey` in a call sequence, in call order. -/
def envFileKeyArgs (cs : List SetterCall) : List String :=
  cs.filterMap (fun c => match c with | .EnvFileKey val => some val | _ => none)

/-- The arguments passed to `SetConfigName` in a call sequence, in call order. -/
def configNameArgs (cs : List SetterCall) : List String :=
  cs.filterMap (fun c => match c with | .ConfigName name => some name | _ => none)

/-- The arguments passed to `SetConfigType` in a call sequence, in call order. -/
def configTypeArgs (cs : List SetterCall) : List String :=
  cs.filterMap (fun c => match c with | .ConfigType typ => some typ | _ => none)

/-- The arguments passed to `SetConfigFile` in a call sequence, in call order. -/
def configFileArgs (cs : List SetterCall) : List String :=
  cs.filterMap (fun c => match c with | .ConfigFile filename => some filename | _ => none)

/-- The arguments passed to `SetSearchPath` in a call sequence, in call order. -/
def searchPathArgs (cs : List SetterCall) : List (List String) :=
  cs.filterMap (fun c => match c with | .SearchPath paths => some paths | _ => none)

/-- The arguments passed to `SetEnvPrefix` in a call sequence, in call order. -/
def envPrefixArgs (cs : List SetterCall) : List String :=
  cs.filterMap (fun c => match c with | .EnvPrefix pfx => some pfx | _ => none)

/-- The arguments passed to `SetWatchHandler` in a call sequence, in call order. -/
def watchHandlerArgs (cs : List SetterCall) : List (Option Handler) :=
  cs.filterMap (fun c => match c with | .WatchHandler handler => some handler | _ => none)

/-- The first non-empty string of a list, the empty string when there is none. -/
def firstNonEmpty (args : List String) : String :=
  (args.find? (fun s => decide (s ≠ ""))).getD ""

/-- The first non-empty sequence of a list, the empty sequence when there is none. -/
def firstNonEmptySeq (args : List (List String)) : List String :=
  (args.find? (fun p => decide (p ≠ []))).getD []

/-- The first non-nil handler of a list, nil when there is none. -/
def firstNonNil (args : List (Option Handler)) : Option Handler :=
  (args.find? (fun h => h.isSome)).getD none

/-! ## A concrete world, after the package's test suite -/

/-- A world like the one `config_test.go` runs in: `MY_TEST_CONFIG_FILE` names
`./test.yaml`; the files `test.yaml` and `test1.toml` are found by name, `config.yaml`
only under `./testdata`; remote registration and inline text succeed, and only the
key `/test.toml` can be read from the remote store. -/
def testWorld : World :=
  { getenv := fun k => if k = "MY_TEST_CONFIG_FILE" then "./test.yaml" else ""
    getwd := "/srv/app"
    join := fun a b => a ++ "/" ++ b
    lower := Char.toLower
    readInConfig := fun v =>
      if Call.SetConfigFile "./test.yaml" ∈ v ∨ Call.SetConfigName "test" ∈ v
          ∨ Call.SetConfigName "test1" ∈ v ∨ Call.AddConfigPath "./testdata" ∈ v then none
      else some "Config File Not Found"
    mergeConfig := fun _ _ => none
    addRemoteProvider := fun _ _ _ _ => none
    addSecureRemoteProvider := fun _ _ _ _ _ => none
    readRemoteConfig := fun v =>
      if Call.AddRemoteProvider "etcd" "http://127.0.0.1:2379" "/test.toml" ∈ v then none
      else some "Remote Configurations Error: No Files Found" }

/-- The registry after `SetEnvFileKey("MY_TEST_CONFIG_FILE")` on a fresh process. -/
def testRegistry : Registry :=
  SetEnvFileKey "MY_TEST_CONFIG_FILE" Registry.zero

/-- The registry after `SetEnvPrefix("MY_")` on a fresh process. -/
def prefixRegistry : Registry :=
  SetEnvPrefix "MY_" Registry.zero

/-- An option asking for inline text with the environment overlay and no prefix of its
own. -/
def envOption : ConfigOption :=
  { ConfigOption.zero with Provider := "content", File := "demo: test", Env := true }

/-- The registry after `SetEnvFileKey("MY_TEST_CONFIG_FILE")` and
`SetConfigFile("./config/config.yaml")` on a fresh process. -/
def fileRegistry : Registry :=
  SetConfigFile "./config/config.yaml" testRegistry

/-! ## Reading the store's calls -/

/-- The registration call `remoteProvider` makes first (lines 205-209): the secure variant
with the secret key when `SecretKey` is non-empty, the plain one otherwise. -/
def remoteRegistration (w : World) (r : Registry) (o : ConfigOption) : Call :=
  if o.SecretKey ≠ "" then
    Call.AddSecureRemoteProvider o.Provider o.EndPoint (getConfigFile w r o) o.SecretKey
  else Call.AddRemoteProvider o.Provider o.EndPoint (getConfigFile w r o)

/-- Whether a call registers a remote backend, in either variant. -/
def Call.isRegistration : Call → Bool
  | .AddSecureRemoteProvider _ _ _ _ => true
  | .AddRemoteProvider _ _ _ => true
  | _ => false

/-- Whether a call starts the polling goroutine of `remoteWatch`. -/
def Call.isGoRemoteWatch : Call → Bool
  | .GoRemoteWatch _ => true
  | _ => false

/-- Whether a call arms a watch of either kind or registers a change callback. -/
def Call.isWatch : Call → Bool
  | .WatchConfig => true
  | .OnConfigChange _ => true
  | .GoRemoteWatch _ => true
  | _ => false

/-- A remote option like `testRemoteOption` of the test suite, without a `File`. -/
def etcdOption : ConfigOption :=
  { ConfigOption.zero with Provider := "etcd", EndPoint := "http://127.0.0.1:2379" }

/-- The option `testContentOption` of the test suite, with a shorter text. -/
def contentOption : ConfigOption :=
  { ConfigOption.zero with
    Provider := "content", File := "title = \"TOML Example\"", Typ := "toml" }

/-! ## What the watches run (lines 236-238 and 246-260) -/

/-- A change event of the file watcher (`fsnotify.Event`): the file's name and the
operation bits. -/
structure FsEvent where
  Name : String
  Op : Nat
deriving DecidableEq, Repr

/-- What the code a watch runs does, one step at a time; `S` is the type of the store
reference `v` the code holds. -/
inductive WatchStep (S : Type) where
  | Sleep (seconds : Nat)
  | WatchRemoteConfig (v : S)
  | Println (msg : String) (err : Error)
  | Invoke (fn : Handler) (v : S)
deriving DecidableEq, Repr

/-- Whether a step is a call of a handler. -/
def WatchStep.isInvoke {S : Type} : WatchStep S → Bool
  | .Invoke _ _ => true
  | _ => false

/-- Whether a step is a remote re-read. -/
def WatchStep.isReRead {S : Type} : WatchStep S → Bool
  | .WatchRemoteConfig _ => true
  | _ => false

/-- The closure `fileWatch` passes to `OnConfigChange` for the handler `fn` and the store
`v`: `func(in fsnotify.Event) { fn(v) }`. -/
def fileWatchCallback {S : Type} (fn : Handler) (v : S) (_in : FsEvent) : List (WatchStep S) :=
  [WatchStep.Invoke fn v]

/-- One turn of the `for` loop of `remoteWatch`, `res` being what `v.WatchRemoteConfig()`
returns in that turn: sleep, re-read, then print and `continue` on an error, call the
handler (when there is one) otherwise. -/
def remoteWatchTurn {S : Type} (fn : Option Handler) (v : S) (res : Option Error) :
    List (WatchStep S) :=
  [WatchStep.Sleep 5, WatchStep.WatchRemoteConfig v] ++
    match res with
    | some err => [WatchStep.Println "unable to read remote config:" err]
    | none =>
      match fn with
      | some f => [WatchStep.Invoke f v]
      | none => []

/-- The goroutine of `remoteWatch` run against the results of its successive re-reads:
one turn per result, whatever the earlier results. -/
def remoteWatchLoop {S : Type} (fn : Option Handler) (v : S) :
    List (Option Error) → List (WatchStep S)
  | [] => []
  | res :: results => remoteWatchTurn fn v res ++ remoteWatchLoop fn v results

/-- What `New` does with the result of the loader it ran (lines 174-178): on an error it
returns the store with that error, otherwise the store after `env` with a nil error. -/
def afterLoad (res : Viper × Option Error) (o : ConfigOption) : Option Viper × Option Error :=
  match res.2 with
  | some err => (some res.1, some err)
  | none => (some (env res.1 o), none)

/-- Whether a call registers a change callback. -/
def Call.isOnConfigChange : Call → Bool
  | .OnConfigChange _ => true
  | _ => false

/-- A file change reaching a store, `store` being the calls made on it so far.  The call
`OnConfigChange fn` is `v.OnConfigChange(func(in fsnotify.Event) { fn(v) })` made on this
store, so the function it registered is `fileWatchCallback fn` holding this store; a
store whose watch is armed runs the function registered last, and an unarmed store or
one without a registered function runs nothing. -/
def storeOnChange (store : Viper) (ev : FsEvent) : List (WatchStep Viper) :=
  if Call.WatchConfig ∈ store then
    match store.reverse.find? Call.isOnConfigChange with
    | some (Call.OnConfigChange fn) => fileWatchCallback fn store ev
    | _ => []
  else []

/-- The option `testFileOptionWithName` of the test suite, asking for a watch. -/
def watchedOption : ConfigOption :=
  { ConfigOption.zero with Provider := "file", Name := "test", Watch := true }

/-! # Theorems -/

theorem runSetters_cons (c : SetterCall) (cs : List SetterCall) (r : Registry) :
    runSetters (c :: cs) r = runSetters cs (c.apply r) := rfl

/-- From any registry: `envFileKey` is kept when already set, and otherwise ends as the first
set argument among the calls of its setter. -/
theorem runSetters_envFileKey (cs : List SetterCall) (r : Registry) :
    (runSetters cs r).envFileKey =
      (if r.envFileKey = "" then firstNonEmpty (envFileKeyArgs cs) else r.envFileKey) := by
  induction cs generalizing r with
  | nil =>
    by_cases h : r.envFileKey = "" <;> simp [runSetters, firstNonEmpty, envFileKeyArgs, h]
  | cons c cs ih =>
    rw [runSetters_cons, ih]
    cases c <;>
      simp only [SetterCall.apply, SetEnvFileKey, SetConfigName, SetConfigType,
        SetConfigFile, SetSearchPath, SetEnvPrefix, SetWatchHandler, envFileKeyArgs,
        List.filterMap_cons, firstNonEmpty, List.find?_cons, List.length_eq_zero]
    all_goals (split_ifs <;> simp_all)

/-- From any registry: `configName` is kept when already set, and otherwise ends as the first
set argument among the calls of its setter. -/
theorem runSetters_configName (cs : List SetterCall) (r : Registry) :
    (runSetters cs r).configName =
      (if r.configName = "" then firstNonEmpty (configNameArgs cs) else r.configName) := by
  induction cs generalizing r with
  | nil =>
    by_cases h : r.configName = "" <;> simp [runSetters, firstNonEmpty, configNameArgs, h]
  | cons c cs ih =>
    rw [runSetters_cons, ih]
    cases c <;>
      simp only [SetterCall.apply, SetEnvFileKey, SetConfigName, SetConfigType,
        SetConfigFile, SetSearchPath, SetEnvPrefix, SetWatchHandler, configNameArgs,
        List.filterMap_cons, firstNonEmpty, List.find?_cons, List.length_eq_zero]
    all_goals (split_ifs <;> simp_all)

/-- From any registry: `configType` is kept when already set, and otherwise ends as the first
set argument among the calls of its setter. -/
theorem runSetters_configType (cs : List SetterCall) (r : Registry) :
    (runSetters cs r).configType =
      (if r.configType = "" then firstNonEmpty (configTypeArgs cs) else r.configType) := by
  induction cs generalizing r with
  | nil =>
    by_cases h : r.configType = "" <;> simp [runSetters, firstNonEmpty, configTypeArgs, h]
  | cons c cs ih =>
    rw [runSetters_cons, ih]
    cases c <;>
      simp only [SetterCall.apply, SetEnvFileKey, SetConfigName, SetConfigType,
        SetConfigFile, SetSearchPath, SetEnvPrefix, SetWatchHandler, configTypeArgs,
        List.filterMap_cons, firstNonEmpty, List.find?_cons, List.length_eq_zero]
    all_goals (split_ifs <;> simp_all)

/-- From any registry: `configFile` is kept when already set, and otherwise ends as the first
set argument among the calls of its setter. -/
theorem runSetters_configFile (cs : List SetterCall) (r : Registry) :
    (runSetters cs r).configFile =
      (if r.configFile = "" then firstNonEmpty (configFileArgs cs) else r.configFile) := by
  induction cs generalizing r with
  | nil =>
    by_cases h : r.configFile = "" <;> simp [runSetters, firstNonEmpty, configFileArgs, h]
  | cons c cs ih =>
    rw [runSetters_cons, ih]
    cases c <;>
      simp only [SetterCall.apply, SetEnvFileKey, SetConfigName, SetConfigType,
        SetConfigFile, SetSearchPath, SetEnvPrefix, SetWatchHandler, configFileArgs,
        List.filterMap_cons, firstNonEmpty, List.find?_cons, List.length_eq_zero]
    all_goals (split_ifs <;> simp_all)

/-- From any registry: `searchPath` is kept when already set, and otherwise ends as the first
set argument among the calls of its setter. -/
theorem runSetters_searchPath (cs : List SetterCall) (r : Registry) :
    (runSetters cs r).searchPath =
      (if r.searchPath = [] then firstNonEmptySeq (searchPathArgs cs) else r.searchPath) := by
  induction cs generalizing r with
  | nil =>
    by_cases h : r.searchPath = [] <;> simp [runSetters, firstNonEmptySeq, searchPathArgs, h]
  | cons c cs ih =>
    rw [runSetters_cons, ih]
    cases c <;>
      simp only [SetterCall.apply, SetEnvFileKey, SetConfigName, SetConfigType,
        SetConfigFile, SetSearchPath, SetEnvPrefix, SetWatchHandler, searchPathArgs,
        List.filterMap_cons, firstNonEmptySeq, List.find?_cons, List.length_eq_zero]
    all_goals (split_ifs <;> simp_all)

/-- From any registry: `envPrefix` is kept when already set, and otherwise ends as the first
set argument among the calls of its setter. -/
theorem runSetters_envPrefix (cs : List SetterCall) (r : Registry) :
    (runSetters cs r).envPrefix =
      (if r.envPrefix = "" then firstNonEmpty (envPrefixArgs cs) else r.envPrefix) := by
  induction cs generalizing r with
  | nil =>
    by_cases h : r.envPrefix = "" <;> simp [runSetters, firstNonEmpty, envPrefixArgs, h]
  | cons c cs ih =>
    rw [runSetters_cons, ih]
    cases c <;>
      simp only [SetterCall.apply, SetEnvFileKey, SetConfigName, SetConfigType,
        SetConfigFile, SetSearchPath, SetEnvPrefix, SetWatchHandler, envPrefixArgs,
        List.filterMap_cons, firstNonEmpty, List.find?_cons, List.length_eq_zero]
    all_goals (split_ifs <;> simp_all)

/-- From any registry: `watchHandler` is kept when already set, and otherwise ends as the first
set argument among the calls of its setter. -/
theorem runSetters_watchHandler (cs : List SetterCall) (r : Registry) :
    (runSetters cs r).watchHandler =
      (if r.watchHandler = none then firstNonNil (watchHandlerArgs cs) else r.watchHandler) := by
  induction cs generalizing r with
  | nil =>
    by_cases h : r.watchHandler = none <;> simp [runSetters, firstNonNil, watchHandlerArgs, h]
  | cons c cs ih =>
    rw [runSetters_cons, ih]
    rcases c with _ | _ | _ | _ | _ | _ | (_ | hd) <;>
      simp only [SetterCall.apply, SetEnvFileKey, SetConfigName, SetConfigType,
        SetConfigFile, SetSearchPath, SetEnvPrefix, SetWatchHandler, watchHandlerArgs,
        List.filterMap_cons, firstNonNil, List.find?_cons, List.length_eq_zero, Option.isSome]
    all_goals (split_ifs <;> simp_all)


/-- The calls `fileProvider` makes before `ReadInConfig`. -/
theorem fileProvider_trace (w : World) (r : Registry) (v : Viper) (o : ConfigOption) :
    ∃ rest, (fileProvider w r v o).1 = fileSetup w r v o ++ [Call.ReadInConfig] ++ rest := by
  simp only [fileProvider]
  cases hr : w.readInConfig (fileSetup w r v o) with
  | some err => exact ⟨[], by simp⟩
  | none =>
    by_cases hw : o.Watch = true
    · simp only [hw, if_true, fileWatch]
      cases getWatchHandler r o with
      | none => exact ⟨[Call.WatchConfig], by simp⟩
      | some fn => exact ⟨[Call.WatchConfig, Call.OnConfigChange fn], by simp⟩
    · exact ⟨[], by simp [hw]⟩

/-- The store `New` returns extends the store its loader left. -/
theorem New_trace (w : World) (r : Registry) (option : List (Option ConfigOption)) :
    ∃ rest, (New w r option).1 =
      some (((selectLoader w (firstOption option)).run w r Viper.new (firstOption option)).1
        ++ rest) := by
  simp only [New]
  cases ((selectLoader w (firstOption option)).run w r Viper.new (firstOption option)).2 with
  | some err => exact ⟨[], by simp⟩
  | none =>
    by_cases he : (firstOption option).Env = true
    · exact ⟨[Call.AutomaticEnv, Call.SetEnvPrefix (firstOption option).EnvPrefix],
        by simp [env, he]⟩
    · exact ⟨[], by simp [env, he]⟩

/-- An empty provider selects the file loader. -/
theorem selectLoader_empty (w : World) (o : ConfigOption) (h : o.Provider = "") :
    selectLoader w o = Loader.file := by
  simp [selectLoader, ToLower, h]

/-- Without options `New` runs the file loader. -/
theorem selectLoader_nil (w : World) : selectLoader w (firstOption []) = Loader.file :=
  selectLoader_empty w _ rfl

/-- C1: each of the seven setters writes its argument into its field when the field is
unset (empty string, empty sequence, nil function) and leaves the field as it was
otherwise. -/
theorem setter_writes_iff_unset (r : Registry) (s : String) (ps : List String)
    (h : Option Handler) :
    (SetEnvFileKey s r).envFileKey = (if r.envFileKey = "" then s else r.envFileKey) ∧
    (SetConfigName s r).configName = (if r.configName = "" then s else r.configName) ∧
    (SetConfigType s r).configType = (if r.configType = "" then s else r.configType) ∧
    (SetConfigFile s r).configFile = (if r.configFile = "" then s else r.configFile) ∧
    (SetSearchPath ps r).searchPath = (if r.searchPath = [] then ps else r.searchPath) ∧
    (SetEnvPrefix s r).envPrefix = (if r.envPrefix = "" then s else r.envPrefix) ∧
    (SetWatchHandler h r).watchHandler =
      (if r.watchHandler = none then h else r.watchHandler) := by
  refine ⟨?_, ?_, ?_, ?_, ?_, ?_, ?_⟩
  · unfold SetEnvFileKey; split <;> rfl
  · unfold SetConfigName; split <;> rfl
  · unfold SetConfigType; split <;> rfl
  · unfold SetConfigFile; split <;> rfl
  · unfold SetSearchPath
    by_cases hp : r.searchPath = [] <;> simp [hp]
  · unfold SetEnvPrefix; split <;> rfl
  · unfold SetWatchHandler; split <;> rfl

/-- C2: first writer wins.  After any finite sequence of setter calls made on the
all-unset registry, each field holds the first non-empty argument passed to its own
setter (and is still unset when no call passed one); in particular a second call of a
setter with another value keeps the non-empty value of the first call. -/
theorem first_writer_wins (cs : List SetterCall) :
    ((runSetters cs Registry.zero).envFileKey = firstNonEmpty (envFileKeyArgs cs) ∧
     (runSetters cs Registry.zero).configName = firstNonEmpty (configNameArgs cs) ∧
     (runSetters cs Registry.zero).configType = firstNonEmpty (configTypeArgs cs) ∧
     (runSetters cs Registry.zero).configFile = firstNonEmpty (configFileArgs cs) ∧
     (runSetters cs Registry.zero).searchPath = firstNonEmptySeq (searchPathArgs cs) ∧
     (runSetters cs Registry.zero).envPrefix = firstNonEmpty (envPrefixArgs cs) ∧
     (runSetters cs Registry.zero).watchHandler = firstNonNil (watchHandlerArgs cs)) ∧
    (∀ a b : String, a ≠ "" →
      (SetEnvFileKey b (SetEnvFileKey a Registry.zero)).envFileKey = a ∧
      (SetConfigName b (SetConfigName a Registry.zero)).configName = a ∧
      (SetConfigType b (SetConfigType a Registry.zero)).configType = a ∧
      (SetConfigFile b (SetConfigFile a Registry.zero)).configFile = a ∧
      (SetEnvPrefix b (SetEnvPrefix a Registry.zero)).envPrefix = a) ∧
    (∀ p q : List String, p ≠ [] →
      (SetSearchPath q (SetSearchPath p Registry.zero)).searchPath = p) ∧
    (∀ (f : Handler) (g : Option Handler),
      (SetWatchHandler g (SetWatchHandler (some f) Registry.zero)).watchHandler = some f) := by
  refine ⟨⟨?_, ?_, ?_, ?_, ?_, ?_, ?_⟩, ?_, ?_, ?_⟩
  · rw [runSetters_envFileKey]; rfl
  · rw [runSetters_configName]; rfl
  · rw [runSetters_configType]; rfl
  · rw [runSetters_configFile]; rfl
  · rw [runSetters_searchPath]; rfl
  · rw [runSetters_envPrefix]; rfl
  · rw [runSetters_watchHandler]; rfl
  · intro a b ha
    simp [SetEnvFileKey, SetConfigName, SetConfigType, SetConfigFile, SetEnvPrefix,
      Registry.zero, ha]
  · intro p q hp
    simp [SetSearchPath, Registry.zero, hp]
  · intro f g
    simp [SetWatchHandler, Registry.zero]

/-- C2 at concrete calls: an empty first argument does not count, the first non-empty
one stays. -/
theorem first_writer_wins_witness :
    (runSetters [.ConfigName "", .ConfigType "toml", .ConfigName "a", .ConfigName "b"]
        Registry.zero).configName = "a" ∧
    (SetConfigName "b" (SetConfigName "a" Registry.zero)).configName = "a" ∧
    (SetSearchPath ["y"] (SetSearchPath ["x"] Registry.zero)).searchPath = ["x"] :=
  ⟨(first_writer_wins _).1.2.1.trans (by decide),
   ((first_writer_wins []).2.1 "a" "b" (by decide)).2.1,
   (first_writer_wins []).2.2.1 ["x"] ["y"] (by decide)⟩

/-- C3: the effective config name is the option's `Name` when non-empty, else the
registry's `configName` when non-empty, else "config"; the effective config type is
the option's `Type` when non-empty, else the registry's `configType` when non-empty,
else "yaml". -/
theorem effective_name_and_type (r : Registry) (o : ConfigOption) :
    getConfigName r o =
      (if o.Name ≠ "" then o.Name else if r.configName ≠ "" then r.configName
        else "config") ∧
    getConfigType r o =
      (if o.Typ ≠ "" then o.Typ else if r.configType ≠ "" then r.configType
        else "yaml") :=
  ⟨rfl, rfl⟩

/-- C4: the effective file path is the option's `File` when non-empty, else the value of
the environment variable named by `envFileKey` when that key and that value are both
non-empty, else the empty string.  With `envFileKey` naming a variable whose value is
`P` and no `File` in the option, the resolved path is `P`; when `P` is non-empty the
file loader hands exactly `P` to the store and reads, and so does `New` called without
options. -/
theorem effective_file (w : World) (r : Registry) (o : ConfigOption) :
    getConfigFile w r o =
      (if o.File ≠ "" then o.File
        else if r.envFileKey ≠ "" ∧ w.getenv r.envFileKey ≠ "" then w.getenv r.envFileKey
        else "") ∧
    (∀ P : String, o.File = "" → r.envFileKey ≠ "" → w.getenv r.envFileKey = P →
      getConfigFile w r o = P ∧
      (P ≠ "" →
        (∀ v : Viper, ∃ rest,
          (fileProvider w r v o).1 = v ++ [Call.SetConfigFile P, Call.ReadInConfig] ++ rest) ∧
        ∃ rest, (New w r []).1 = some ([Call.SetConfigFile P, Call.ReadInConfig] ++ rest))) := by
  refine ⟨rfl, ?_⟩
  intro P hf hk hP
  have hfile : ∀ o2 : ConfigOption, o2.File = "" → getConfigFile w r o2 = P := by
    intro o2 hf2
    by_cases hp : P = "" <;> simp [getConfigFile, hf2, hk, hP, hp]
  refine ⟨hfile o hf, ?_⟩
  intro hp
  have hload : ∀ (o2 : ConfigOption) (v : Viper), o2.File = "" → ∃ rest,
      (fileProvider w r v o2).1 = v ++ [Call.SetConfigFile P, Call.ReadInConfig] ++ rest := by
    intro o2 v hf2
    obtain ⟨rest, hrest⟩ := fileProvider_trace w r v o2
    refine ⟨rest, ?_⟩
    rw [hrest, fileSetup, hfile o2 hf2]
    simp [hp]
  refine ⟨fun v => hload o v hf, ?_⟩
  obtain ⟨rest, hrest⟩ := hload ConfigOption.zero Viper.new rfl
  obtain ⟨rest2, hrest2⟩ := New_trace w r []
  refine ⟨rest ++ rest2, ?_⟩
  have hz : firstOption [] = ConfigOption.zero := rfl
  rw [hrest2, selectLoader_nil, hz]
  simp only [Loader.run]
  rw [hrest]
  simp [Viper.new]

/-- C4 in the world of `TestNew_FileEnv`: the variable names `./test.yaml`, and `New()`
hands that path to the store. -/
theorem effective_file_witness :
    getConfigFile testWorld testRegistry ConfigOption.zero = "./test.yaml" ∧
    ∃ rest, (New testWorld testRegistry []).1 =
      some ([Call.SetConfigFile "./test.yaml", Call.ReadInConfig] ++ rest) :=
  ⟨((effective_file testWorld testRegistry ConfigOption.zero).2 "./test.yaml" rfl
      (by decide) (by decide)).1,
   (((effective_file testWorld testRegistry ConfigOption.zero).2 "./test.yaml" rfl
      (by decide) (by decide)).2 (by decide)).2⟩

/-- C5 (the code at the failing input): after `SetEnvPrefix("MY_")`, a successful `New`
with `Env` true and no `EnvPrefix` of its own sets the empty prefix on the store, not the
registry's "MY_". -/
theorem New_envPrefix_ignores_registry :
    prefixRegistry.envPrefix = "MY_" ∧
    New testWorld prefixRegistry [some envOption] =
      (some [Call.SetConfigType "yaml", Call.MergeConfig "demo: test", Call.AutomaticEnv,
        Call.SetEnvPrefix ""], none) := by
  decide

/-- The prefix `New` sets is the option's `EnvPrefix` in every registry state. -/
theorem env_sets_option_envPrefix (v : Viper) (o : ConfigOption) (h : o.Env = true) :
    env v o = v ++ [Call.AutomaticEnv, Call.SetEnvPrefix o.EnvPrefix] := by
  simp [env, h]

/-- C6 (the code at the failing input): after `SetConfigFile("./config/config.yaml")` the
resolved path is not that file: it is the value of the variable named by `envFileKey`
when there is one, and empty (search-path mode) otherwise. -/
theorem config_file_default_unread :
    fileRegistry.configFile = "./config/config.yaml" ∧
    getConfigFile testWorld fileRegistry ConfigOption.zero = "./test.yaml" ∧
    (SetConfigFile "./config/config.yaml" Registry.zero).configFile = "./config/config.yaml" ∧
    getConfigFile testWorld (SetConfigFile "./config/config.yaml" Registry.zero)
      ConfigOption.zero = "" := by
  decide

/-- The four provider names that do not select the file loader. -/
theorem selectLoader_cases (w : World) (o : ConfigOption) :
    (ToLower w o.Provider = "content" → selectLoader w o = Loader.content) ∧
    (ToLower w o.Provider = "etcd" ∨ ToLower w o.Provider = "consul"
        ∨ ToLower w o.Provider = "firestore" → selectLoader w o = Loader.remote) ∧
    (ToLower w o.Provider ≠ "content" → ToLower w o.Provider ≠ "etcd" →
      ToLower w o.Provider ≠ "consul" → ToLower w o.Provider ≠ "firestore" →
      selectLoader w o = Loader.file) := by
  refine ⟨?_, ?_, ?_⟩
  · intro h
    simp [selectLoader, h]
  · rintro (h | h | h) <;> simp [selectLoader, h]
  · intro h1 h2 h3 h4
    unfold selectLoader
    split <;> simp_all

/-- The file loader and the environment overlay do not read `Provider`. -/
theorem fileProvider_provider (w : World) (r : Registry) (v : Viper) (o : ConfigOption)
    (p : String) :
    fileProvider w r v { o with Provider := p } = fileProvider w r v o ∧
    ∀ v2, env v2 { o with Provider := p } = env v2 o :=
  ⟨rfl, fun _ => rfl⟩

/-- The result of `New` is what `afterLoad` makes of the result of the loader picked by
the `switch`, run on a fresh store. -/
theorem New_eq_afterLoad (w : World) (r : Registry) (o : ConfigOption)
    (rest : List (Option ConfigOption)) :
    New w r (some o :: rest) = afterLoad ((selectLoader w o).run w r Viper.new o) o := by
  simp only [New, firstOption, afterLoad]

/-- C7: the loader `New` runs is a function of the lower-cased provider alone.  For
"content" `New` runs `contentProvider`, for "etcd", "consul" and "firestore" it runs
`remoteProvider`, for anything else ("file" and the empty string included) it runs
`fileProvider`, each on a fresh store, and returns what lines 174-178 make of that
loader's result; and an option whose lower-cased provider is none of those four names
gives the same result of `New` as the same option with an empty provider. -/
theorem dispatch_by_lowercase_provider (w : World) (o : ConfigOption) :
    (∀ o2 : ConfigOption, ToLower w o2.Provider = ToLower w o.Provider →
      selectLoader w o2 = selectLoader w o) ∧
    (ToLower w o.Provider = "content" →
      selectLoader w o = Loader.content ∧
      ∀ (r : Registry) (rest : List (Option ConfigOption)),
        New w r (some o :: rest) = afterLoad (contentProvider w r Viper.new o) o) ∧
    (ToLower w o.Provider = "etcd" ∨ ToLower w o.Provider = "consul"
        ∨ ToLower w o.Provider = "firestore" →
      selectLoader w o = Loader.remote ∧
      ∀ (r : Registry) (rest : List (Option ConfigOption)),
        New w r (some o :: rest) = afterLoad (remoteProvider w r Viper.new o) o) ∧
    (ToLower w o.Provider ≠ "content" → ToLower w o.Provider ≠ "etcd" →
      ToLower w o.Provider ≠ "consul" → ToLower w o.Provider ≠ "firestore" →
      selectLoader w o = Loader.file ∧
      ∀ (r : Registry) (rest : List (Option ConfigOption)),
        New w r (some o :: rest) = afterLoad (fileProvider w r Viper.new o) o ∧
        New w r (some o :: rest) = New w r (some { o with Provider := "" } :: rest)) := by
  refine ⟨?_, ?_, ?_, ?_⟩
  · intro o2 h
    simp only [selectLoader, h]
  · intro h
    have hsel := (selectLoader_cases w o).1 h
    refine ⟨hsel, ?_⟩
    intro r rest
    rw [New_eq_afterLoad, hsel]
    rfl
  · intro h
    have hsel := (selectLoader_cases w o).2.1 h
    refine ⟨hsel, ?_⟩
    intro r rest
    rw [New_eq_afterLoad, hsel]
    rfl
  · intro h1 h2 h3 h4
    have hfile := (selectLoader_cases w o).2.2 h1 h2 h3 h4
    refine ⟨hfile, ?_⟩
    intro r rest
    have hempty : selectLoader w { o with Provider := "" } = Loader.file :=
      selectLoader_empty w _ rfl
    refine ⟨?_, ?_⟩
    · rw [New_eq_afterLoad, hfile]
      rfl
    · rw [New_eq_afterLoad, New_eq_afterLoad, hfile, hempty]
      rfl

/-- C7 at concrete providers: "xml", "FILE" and "" run the file loader, "Content" the
content loader, "ETCD" the remote one, and the store shows which loader ran. -/
theorem dispatch_by_lowercase_provider_witness :
    New testWorld Registry.zero [some { ConfigOption.zero with Provider := "xml" }] =
      New testWorld Registry.zero
        [some { { ConfigOption.zero with Provider := "xml" } with Provider := "" }] ∧
    New testWorld Registry.zero [some { ConfigOption.zero with Provider := "FILE" }] =
      (some [Call.AddConfigPath "/srv/app", Call.AddConfigPath "/srv/app/config",
        Call.SetConfigName "config", Call.SetConfigType "yaml", Call.ReadInConfig],
       some "Config File Not Found") ∧
    New testWorld Registry.zero
        [some { ConfigOption.zero with Provider := "Content", File := "a: 1" }] =
      (some [Call.SetConfigType "yaml", Call.MergeConfig "a: 1"], none) ∧
    New testWorld Registry.zero
        [some { ConfigOption.zero with Provider := "ETCD", File := "/test.toml" }] =
      (some [Call.AddRemoteProvider "ETCD" "" "/test.toml", Call.SetConfigType "yaml",
        Call.ReadRemoteConfig],
       some "Remote Configurations Error: No Files Found") :=
  ⟨(((dispatch_by_lowercase_provider testWorld
        { ConfigOption.zero with Provider := "xml" }).2.2.2
      (by decide) (by decide) (by decide) (by decide)).2 Registry.zero []).2,
   ((((dispatch_by_lowercase_provider testWorld
        { ConfigOption.zero with Provider := "FILE" }).2.2.2
      (by decide) (by decide) (by decide) (by decide)).2 Registry.zero []).1).trans
      (by decide),
   (((dispatch_by_lowercase_provider testWorld
        { ConfigOption.zero with Provider := "Content", File := "a: 1" }).2.1
      (by decide)).2 Registry.zero []).trans (by decide),
   (((dispatch_by_lowercase_provider testWorld
        { ConfigOption.zero with Provider := "ETCD", File := "/test.toml" }).2.2.1
      (Or.inl (by decide))).2 Registry.zero []).trans (by decide)⟩

/-- C8: the effective search path is the option's `SearchPath` when non-empty, else the
registry's `searchPath` when non-empty, else the two directories: the working directory
and `config` under it; it is the chosen sequence itself, in its order, and never
empty. -/
theorem effective_search_path (w : World) (r : Registry) (o : ConfigOption) :
    getSearchPath w r o =
      (if o.SearchPath ≠ [] then o.SearchPath
        else if r.searchPath ≠ [] then r.searchPath
        else [w.getwd, w.join w.getwd "config"]) ∧
    getSearchPath w r o ≠ [] := by
  unfold getSearchPath
  by_cases h1 : o.SearchPath = []
  · by_cases h2 : r.searchPath = []
    · simp [h1, h2]
    · simp [h1, h2, List.length_pos]
  · simp [h1, List.length_pos]

/-- The loop of `fileProvider` over the search path adds one `AddConfigPath` per
directory, in order. -/
theorem addConfigPaths_eq (l : List String) (v : Viper) :
    l.foldl (fun acc s => acc ++ [Call.AddConfigPath s]) v = v ++ l.map Call.AddConfigPath := by
  induction l generalizing v with
  | nil => simp
  | cons s l ih => simp [ih]

/-- No loader touches the environment settings of the store. -/
theorem loader_no_overlay (l : Loader) (w : World) (r : Registry) (o : ConfigOption)
    (c : Call) (hc : c ∈ (l.run w r Viper.new o).1) :
    c ≠ Call.AutomaticEnv ∧ ∀ p, c ≠ Call.SetEnvPrefix p := by
  cases l with
  | file =>
    simp only [Loader.run, fileProvider, fileSetup, fileWatch, addConfigPaths_eq,
      Viper.new] at hc
    constructor
    · rintro rfl
      revert hc
      split <;> (try split) <;> (try split) <;> (try split) <;> simp
    · rintro p rfl
      revert hc
      split <;> (try split) <;> (try split) <;> (try split) <;> simp
  | content =>
    simp only [Loader.run, contentProvider, Viper.new] at hc
    constructor
    · rintro rfl
      simp at hc
    · rintro p rfl
      simp at hc
  | remote =>
    simp only [Loader.run, remoteProvider, remoteWatch, Viper.new] at hc
    constructor
    · rintro rfl
      revert hc
      split <;> (try split) <;> (try split) <;> (try split) <;> simp
    · rintro p rfl
      revert hc
      split <;> (try split) <;> (try split) <;> (try split) <;> simp

/-- C9: the error of `New` is the error of the loader it ran, unchanged; it is non-nil
exactly when the loader failed; and then the store returned is the store as the loader
left it, with no environment call on it. -/
theorem New_error_is_loader_error (w : World) (r : Registry)
    (option : List (Option ConfigOption)) :
    (New w r option).2 =
      ((selectLoader w (firstOption option)).run w r Viper.new (firstOption option)).2 ∧
    ((New w r option).2 ≠ none ↔
      ((selectLoader w (firstOption option)).run w r Viper.new (firstOption option)).2
        ≠ none) ∧
    (((selectLoader w (firstOption option)).run w r Viper.new (firstOption option)).2
        ≠ none →
      (New w r option).1 =
        some ((selectLoader w (firstOption option)).run w r Viper.new
          (firstOption option)).1 ∧
      ∀ v, (New w r option).1 = some v →
        Call.AutomaticEnv ∉ v ∧ ∀ p, Call.SetEnvPrefix p ∉ v) := by
  have hno := loader_no_overlay (selectLoader w (firstOption option)) w r (firstOption option)
  simp only [New]
  cases hres :
      ((selectLoader w (firstOption option)).run w r Viper.new (firstOption option)).2 with
  | none => simp
  | some err =>
    refine ⟨rfl, by simp, ?_⟩
    intro _
    refine ⟨rfl, ?_⟩
    intro v hv
    simp only [Option.some.injEq] at hv
    subst hv
    exact ⟨fun hc => (hno _ hc).1 rfl, fun p hc => (hno _ hc).2 p rfl⟩

/-- C9 in the world of `TestNew_Empty`: no `config.yaml` is found, `New` returns the
store's own error, and the overlay asked for by `Env` is not on the store. -/
theorem New_error_is_loader_error_witness :
    (New testWorld Registry.zero [some { ConfigOption.zero with Env := true }]).2 =
      some "Config File Not Found" ∧
    (New testWorld Registry.zero [some { ConfigOption.zero with Env := true }]).1 =
      some [Call.AddConfigPath "/srv/app", Call.AddConfigPath "/srv/app/config",
        Call.SetConfigName "config", Call.SetConfigType "yaml", Call.ReadInConfig] :=
  ⟨(New_error_is_loader_error testWorld Registry.zero
      [some { ConfigOption.zero with Env := true }]).1.trans (by decide),
   (((New_error_is_loader_error testWorld Registry.zero
      [some { ConfigOption.zero with Env := true }]).2.2 (by decide)).1).trans (by decide)⟩

/-- C10 as stated fails: in the world of `TestNew_Empty`, `New()` returns a non-nil error
together with a non-nil, partly configured store. -/
theorem New_returns_store_with_error :
    New testWorld Registry.zero [] =
      (some [Call.AddConfigPath "/srv/app", Call.AddConfigPath "/srv/app/config",
        Call.SetConfigName "config", Call.SetConfigType "yaml", Call.ReadInConfig],
       some "Config File Not Found") ∧
    ¬ ((New testWorld Registry.zero []).2 ≠ none → (New testWorld Registry.zero []).1 = none) := by
  decide

/-- C10 as amended: `New` returns a store in every case.  With a nil error it is the
loaded store, the loader having succeeded and the overlay been applied; with a non-nil
error it is the store as the failed loader left it. -/
theorem New_always_returns_store (w : World) (r : Registry)
    (option : List (Option ConfigOption)) :
    (New w r option).1 ≠ none ∧
    ((New w r option).2 = none →
      ((selectLoader w (firstOption option)).run w r Viper.new (firstOption option)).2
        = none ∧
      (New w r option).1 =
        some (env ((selectLoader w (firstOption option)).run w r Viper.new
          (firstOption option)).1 (firstOption option))) ∧
    (∀ err, (New w r option).2 = some err →
      ((selectLoader w (firstOption option)).run w r Viper.new (firstOption option)).2
        = some err ∧
      (New w r option).1 =
        some ((selectLoader w (firstOption option)).run w r Viper.new
          (firstOption option)).1) := by
  simp only [New]
  cases hres :
      ((selectLoader w (firstOption option)).run w r Viper.new (firstOption option)).2 with
  | none => simp
  | some e => simp

/-- C10 as amended, at the two outcomes of `TestNew_Empty`: a failed `New()` still returns
its store, and after `SetConfigName("test")` the loaded store comes with a nil error. -/
theorem New_always_returns_store_witness :
    (New testWorld Registry.zero []).1 =
      some ((selectLoader testWorld (firstOption [])).run testWorld Registry.zero Viper.new
        (firstOption [])).1 ∧
    (New testWorld (SetConfigName "test" Registry.zero) []).1 =
      some (env ((selectLoader testWorld (firstOption [])).run testWorld
        (SetConfigName "test" Registry.zero) Viper.new (firstOption [])).1 (firstOption [])) :=
  ⟨((New_always_returns_store testWorld Registry.zero []).2.2 "Config File Not Found"
      (by decide)).2,
   ((New_always_returns_store testWorld (SetConfigName "test" Registry.zero) []).2.1
      (by decide)).2⟩

/-- The calls of `remoteProvider`: the registration first, and no other registration
after it. -/
theorem remoteProvider_trace (w : World) (r : Registry) (v : Viper) (o : ConfigOption) :
    ∃ rest, (remoteProvider w r v o).1 = v ++ [remoteRegistration w r o] ++ rest ∧
      ∀ c ∈ rest, c.isRegistration = false := by
  by_cases hs : o.SecretKey = ""
  · simp only [remoteProvider, remoteRegistration, remoteWatch, hs, ne_eq, not_true_eq_false,
      if_false]
    cases w.addRemoteProvider v o.Provider o.EndPoint (getConfigFile w r o) with
    | some err => exact ⟨[], by simp⟩
    | none =>
      simp only []
      split
      · exact ⟨[Call.SetConfigType (getConfigType r o), Call.ReadRemoteConfig],
          by simp [Call.isRegistration]⟩
      · split
        · exact ⟨[Call.SetConfigType (getConfigType r o), Call.ReadRemoteConfig,
            Call.GoRemoteWatch (getWatchHandler r o)], by simp [Call.isRegistration]⟩
        · exact ⟨[Call.SetConfigType (getConfigType r o), Call.ReadRemoteConfig],
            by simp [Call.isRegistration]⟩
  · simp only [remoteProvider, remoteRegistration, remoteWatch, hs, ne_eq, not_false_eq_true,
      if_true]
    cases w.addSecureRemoteProvider v o.Provider o.EndPoint (getConfigFile w r o)
        o.SecretKey with
    | some err => exact ⟨[], by simp⟩
    | none =>
      simp only []
      split
      · exact ⟨[Call.SetConfigType (getConfigType r o), Call.ReadRemoteConfig],
          by simp [Call.isRegistration]⟩
      · split
        · exact ⟨[Call.SetConfigType (getConfigType r o), Call.ReadRemoteConfig,
            Call.GoRemoteWatch (getWatchHandler r o)], by simp [Call.isRegistration]⟩
        · exact ⟨[Call.SetConfigType (getConfigType r o), Call.ReadRemoteConfig],
            by simp [Call.isRegistration]⟩

/-- C11 as stated fails: with `MY_TEST_CONFIG_FILE` naming `./test.yaml` and an "etcd"
option without `File`, the store is registered under the key `./test.yaml`, not under
the empty `File`. -/
theorem remote_key_from_environment :
    etcdOption.File = "" ∧
    New testWorld testRegistry [some etcdOption] =
      (some [Call.AddRemoteProvider "etcd" "http://127.0.0.1:2379" "./test.yaml",
        Call.SetConfigType "yaml", Call.ReadRemoteConfig],
       some "Remote Configurations Error: No Files Found") ∧
    Call.AddRemoteProvider etcdOption.Provider etcdOption.EndPoint etcdOption.File ∉
      (remoteProvider testWorld testRegistry Viper.new etcdOption).1 := by
  decide

/-- C11 as amended: the remote loader registers the store with backend `Provider` at
`EndPoint` under the effective file path: `File` when it is non-empty, and otherwise the
value of the environment variable named by `envFileKey` (the empty key when that name or
that value is empty). -/
theorem remote_registration_key (w : World) (r : Registry) (v : Viper) (o : ConfigOption) :
    (∃ rest, (remoteProvider w r v o).1 =
      v ++ [if o.SecretKey ≠ "" then
              Call.AddSecureRemoteProvider o.Provider o.EndPoint (getConfigFile w r o)
                o.SecretKey
            else Call.AddRemoteProvider o.Provider o.EndPoint (getConfigFile w r o)]
        ++ rest) ∧
    (o.File ≠ "" → getConfigFile w r o = o.File) ∧
    (o.File = "" → r.envFileKey ≠ "" → getConfigFile w r o = w.getenv r.envFileKey) ∧
    (o.File = "" → r.envFileKey = "" → getConfigFile w r o = "") := by
  refine ⟨?_, ?_, ?_, ?_⟩
  · obtain ⟨rest, hrest, _⟩ := remoteProvider_trace w r v o
    exact ⟨rest, hrest⟩
  · intro h
    simp [getConfigFile, h]
  · intro h hk
    by_cases hv : w.getenv r.envFileKey = "" <;> simp [getConfigFile, h, hk, hv]
  · intro h hk
    simp [getConfigFile, h, hk]

/-- C11 as amended, on the option of `TestNew_Remote` and on one without `File`. -/
theorem remote_registration_key_witness :
    getConfigFile testWorld testRegistry { etcdOption with File := "/test.toml" }
      = "/test.toml" ∧
    getConfigFile testWorld testRegistry etcdOption = "./test.yaml" ∧
    getConfigFile testWorld Registry.zero etcdOption = "" :=
  ⟨(remote_registration_key testWorld testRegistry Viper.new
      { etcdOption with File := "/test.toml" }).2.1 (by decide),
   ((remote_registration_key testWorld testRegistry Viper.new etcdOption).2.2.1
      (by decide) (by decide)).trans (by decide),
   (remote_registration_key testWorld Registry.zero Viper.new etcdOption).2.2.2
      (by decide) (by decide)⟩

/-- C12: the remote loader registers with `AddSecureRemoteProvider`, keyed by `SecretKey`,
exactly when `SecretKey` is non-empty, and with `AddRemoteProvider` otherwise; that call
is the first thing it does and the only registration it makes. -/
theorem remote_registration_variant (w : World) (r : Registry) (v : Viper)
    (o : ConfigOption) :
    (∃ rest, (remoteProvider w r v o).1 = v ++ [remoteRegistration w r o] ++ rest ∧
      ∀ c ∈ rest, c.isRegistration = false) ∧
    ((remoteProvider w r v o).1.countP Call.isRegistration
      = v.countP Call.isRegistration + 1) ∧
    (o.SecretKey ≠ "" ↔ remoteRegistration w r o =
      Call.AddSecureRemoteProvider o.Provider o.EndPoint (getConfigFile w r o) o.SecretKey) ∧
    (o.SecretKey = "" ↔ remoteRegistration w r o =
      Call.AddRemoteProvider o.Provider o.EndPoint (getConfigFile w r o)) := by
  obtain ⟨rest, hrest, hnone⟩ := remoteProvider_trace w r v o
  refine ⟨⟨rest, hrest, hnone⟩, ?_, ?_, ?_⟩
  · have h0 : rest.countP Call.isRegistration = 0 := by
      rw [List.countP_eq_zero]
      intro c hc
      simp [hnone c hc]
    have h1 : (remoteRegistration w r o).isRegistration = true := by
      unfold remoteRegistration
      split <;> rfl
    rw [hrest]
    simp [List.countP_append, List.countP_cons, h0, h1]
  · by_cases hs : o.SecretKey = "" <;> simp [remoteRegistration, hs]
  · by_cases hs : o.SecretKey = "" <;> simp [remoteRegistration, hs]

/-- C12 on two "etcd" options: with a secret key the secure registration is made, without
one the plain registration. -/
theorem remote_registration_variant_witness :
    remoteRegistration testWorld Registry.zero { etcdOption with SecretKey := "key.gpg" } =
      Call.AddSecureRemoteProvider "etcd" "http://127.0.0.1:2379" "" "key.gpg" ∧
    remoteRegistration testWorld Registry.zero etcdOption =
      Call.AddRemoteProvider "etcd" "http://127.0.0.1:2379" "" :=
  ⟨((remote_registration_variant testWorld Registry.zero Viper.new
      { etcdOption with SecretKey := "key.gpg" }).2.2.1.mp (by decide)).trans (by decide),
   ((remote_registration_variant testWorld Registry.zero Viper.new
      etcdOption).2.2.2.mp (by decide)).trans (by decide)⟩

/-- C13: the content loader sets the store's type to the effective type and then merges
the text `File` itself, whatever the environment holds; `Watch` and `WatchHandler` are
not read, so options that differ only there give the same store and error, from the
loader and from `New`; and the store carries no watch call. -/
theorem content_loader (w : World) (r : Registry) (o : ConfigOption) :
    (∀ v : Viper, contentProvider w r v o =
      (v ++ [Call.SetConfigType (getConfigType r o), Call.MergeConfig o.File],
       w.mergeConfig (v ++ [Call.SetConfigType (getConfigType r o)]) o.File)) ∧
    (∀ (v : Viper) (b : Bool) (h : Option Handler),
      contentProvider w r v { o with Watch := b, WatchHandler := h }
        = contentProvider w r v o) ∧
    (ToLower w o.Provider = "content" →
      ∀ (rest : List (Option ConfigOption)),
        (∀ (b : Bool) (h : Option Handler),
          New w r (some { o with Watch := b, WatchHandler := h } :: rest)
            = New w r (some o :: rest)) ∧
        ∀ s, (New w r (some o :: rest)).1 = some s → ∀ c ∈ s, c.isWatch = false) := by
  refine ⟨?_, ?_, ?_⟩
  · intro v
    simp [contentProvider]
  · intro v b h
    rfl
  · intro hp rest
    have hsel : selectLoader w o = Loader.content := (selectLoader_cases w o).1 hp
    constructor
    · intro b h
      have hsel2 : selectLoader w { o with Watch := b, WatchHandler := h } = Loader.content :=
        (selectLoader_cases w _).1 hp
      simp only [New, firstOption, hsel, hsel2, Loader.run]
      rfl
    · intro s hs c hc
      simp only [New, firstOption, hsel, Loader.run, contentProvider, Viper.new, env] at hs
      revert hs
      split
      · intro hs
        simp only [Option.some.injEq] at hs
        subst hs
        simp at hc
        rcases hc with rfl | rfl <;> rfl
      · intro hs
        simp only [Option.some.injEq] at hs
        subst hs
        revert hc
        split
        · simp
          rintro (rfl | rfl) <;> rfl
        · simp
          rintro (rfl | rfl | rfl | rfl) <;> rfl

/-- C13 on the text of `TestNew_Content`: the store is typed "toml" and given the text,
with or without `Watch`, also while `MY_TEST_CONFIG_FILE` names a file. -/
theorem content_loader_witness :
    New testWorld testRegistry
        [some { contentOption with Watch := true, WatchHandler := some ⟨1⟩ }]
      = New testWorld testRegistry [some contentOption] ∧
    New testWorld testRegistry [some contentOption] =
      (some [Call.SetConfigType "toml", Call.MergeConfig "title = \"TOML Example\""], none) :=
  ⟨((content_loader testWorld testRegistry contentOption).2.2 (by decide) []).1 true
      (some ⟨1⟩),
   by decide⟩

/-- The polling loop over two runs of results is the loop over the first followed by
the loop over the second. -/
theorem remoteWatchLoop_append {S : Type} (fn : Option Handler) (v : S)
    (a b : List (Option Error)) :
    remoteWatchLoop fn v (a ++ b) = remoteWatchLoop fn v a ++ remoteWatchLoop fn v b := by
  induction a with
  | nil => simp [remoteWatchLoop]
  | cons res a ih => simp [remoteWatchLoop, ih]

/-- Every turn of the polling loop re-reads once. -/
theorem remoteWatchLoop_reReads {S : Type} (fn : Option Handler) (v : S)
    (results : List (Option Error)) :
    (remoteWatchLoop fn v results).countP WatchStep.isReRead = results.length := by
  induction results with
  | nil => simp [remoteWatchLoop]
  | cons res results ih =>
    rcases res with _ | err <;> rcases fn with _ | f <;>
      simp [remoteWatchLoop, remoteWatchTurn, List.countP_append, List.countP_cons, ih,
        WatchStep.isReRead]

/-- C15: `remoteWatch` starts one goroutine holding the effective handler.  In each turn
of its loop the handler is called, once and with the store, exactly when the re-read of
that turn succeeded and there is a handler; a failed re-read calls no handler and does
not stop the loop: every result gets its turn, and a success right after a failure
calls the handler. -/
theorem remote_watch_turn (r : Registry) (o : ConfigOption) (S : Type) (v : S) :
    (∀ s : Viper, remoteWatch r s o = s ++ [Call.GoRemoteWatch (getWatchHandler r o)]) ∧
    (∀ (res : Option Error) (f : Handler),
      WatchStep.Invoke f v ∈ remoteWatchTurn (getWatchHandler r o) v res ↔
        res = none ∧ getWatchHandler r o = some f) ∧
    (∀ f, getWatchHandler r o = some f →
      (remoteWatchTurn (getWatchHandler r o) v none).filter WatchStep.isInvoke
        = [WatchStep.Invoke f v]) ∧
    (∀ err, (remoteWatchTurn (getWatchHandler r o) v (some err)).filter WatchStep.isInvoke
        = []) ∧
    (∀ results : List (Option Error),
      (remoteWatchLoop (getWatchHandler r o) v results).countP WatchStep.isReRead
        = results.length) ∧
    (∀ (before after : List (Option Error)) (err : Error),
      remoteWatchLoop (getWatchHandler r o) v (before ++ some err :: none :: after) =
        remoteWatchLoop (getWatchHandler r o) v before
          ++ remoteWatchTurn (getWatchHandler r o) v (some err)
          ++ remoteWatchTurn (getWatchHandler r o) v none
          ++ remoteWatchLoop (getWatchHandler r o) v after) := by
  refine ⟨fun _ => rfl, ?_, ?_, ?_, ?_, ?_⟩
  · intro res f
    rcases res with _ | err <;> rcases getWatchHandler r o with _ | g <;>
      simp [remoteWatchTurn]
    exact eq_comm
  · intro f hf
    simp [hf, remoteWatchTurn, WatchStep.isInvoke]
  · intro err
    simp [remoteWatchTurn, WatchStep.isInvoke]
  · intro results
    exact remoteWatchLoop_reReads _ v results
  · intro before after err
    rw [remoteWatchLoop_append]
    simp [remoteWatchLoop]

/-- C15 on a run of three turns, the second failing: the handler is called in the first
and the third turn only. -/
theorem remote_watch_turn_witness :
    (remoteWatchLoop (getWatchHandler (SetWatchHandler (some ⟨7⟩) Registry.zero)
        ConfigOption.zero) "v" [none, some "timeout", none]).filter WatchStep.isInvoke
      = [WatchStep.Invoke ⟨7⟩ "v", WatchStep.Invoke ⟨7⟩ "v"] ∧
    (remoteWatchTurn (getWatchHandler (SetWatchHandler (some ⟨7⟩) Registry.zero)
        ConfigOption.zero) "v" none).filter WatchStep.isInvoke
      = [WatchStep.Invoke ⟨7⟩ "v"] :=
  ⟨by decide,
   (remote_watch_turn (SetWatchHandler (some ⟨7⟩) Registry.zero) ConfigOption.zero String
      "v").2.2.1 ⟨7⟩ (by decide)⟩

/-- C16: `New` without options, and `New` whose first option is nil, do what `New` does
with an all-empty option. -/
theorem New_default_option (w : World) (r : Registry) :
    New w r [] = New w r [some ConfigOption.zero] ∧
    ∀ rest : List (Option ConfigOption),
      New w r (none :: rest) = New w r [some ConfigOption.zero] :=
  ⟨rfl, fun _ => rfl⟩

/-- What `fileProvider` tells the store before reading: the one file, or the search
path in order followed by name and type; none of it is a watch call. -/
theorem fileSetup_eq (w : World) (r : Registry) (v : Viper) (o : ConfigOption) :
    fileSetup w r v o =
      v ++ (if getConfigFile w r o ≠ "" then [Call.SetConfigFile (getConfigFile w r o)]
        else (getSearchPath w r o).map Call.AddConfigPath
          ++ [Call.SetConfigName (getConfigName r o), Call.SetConfigType (getConfigType r o)]) := by
  unfold fileSetup
  by_cases h : getConfigFile w r o = "" <;> simp [h, addConfigPaths_eq]

/-- The search-path calls are not watch calls. -/
theorem countP_isWatch_paths (l : List String) :
    (l.map Call.AddConfigPath).countP Call.isWatch = 0 := by
  induction l with
  | nil => rfl
  | cons s l ih => simp [List.countP_cons, ih, Call.isWatch]

/-- Setting the store up for a file read adds no watch call. -/
theorem fileSetup_countP_isWatch (w : World) (r : Registry) (v : Viper) (o : ConfigOption) :
    (fileSetup w r v o).countP Call.isWatch = v.countP Call.isWatch := by
  rw [fileSetup_eq]
  by_cases h : getConfigFile w r o = "" <;>
    simp [h, List.countP_append, List.countP_cons, countP_isWatch_paths, Call.isWatch]

/-- C17: when the effective file path is non-empty the file loader gives the store that
path and nothing else before reading, and `Name`, `Type` and `SearchPath` of the option
play no part; otherwise it gives the store each directory of the effective search
path, in order, then the effective name, then the effective type. -/
theorem file_loader_mode (w : World) (r : Registry) (v : Viper) (o : ConfigOption) :
    (getConfigFile w r o ≠ "" →
      fileSetup w r v o = v ++ [Call.SetConfigFile (getConfigFile w r o)] ∧
      ∀ (n t : String) (sp : List String),
        fileProvider w r v { o with Name := n, Typ := t, SearchPath := sp }
          = fileProvider w r v o) ∧
    (getConfigFile w r o = "" →
      fileSetup w r v o =
        v ++ (getSearchPath w r o).map Call.AddConfigPath
          ++ [Call.SetConfigName (getConfigName r o),
              Call.SetConfigType (getConfigType r o)]) ∧
    (∃ rest, (fileProvider w r v o).1 = fileSetup w r v o ++ [Call.ReadInConfig] ++ rest ∧
      ∀ c ∈ rest, c.isWatch = true) := by
  refine ⟨?_, ?_, ?_⟩
  · intro h
    refine ⟨by rw [fileSetup_eq]; simp [h], ?_⟩
    intro n t sp
    have hf : getConfigFile w r { o with Name := n, Typ := t, SearchPath := sp }
        = getConfigFile w r o := rfl
    have hs : fileSetup w r v { o with Name := n, Typ := t, SearchPath := sp }
        = fileSetup w r v o := by
      rw [fileSetup_eq, fileSetup_eq, hf]
      simp [h]
    simp only [fileProvider, hs]
    rfl
  · intro h
    rw [fileSetup_eq]
    simp [h]
  · simp only [fileProvider]
    cases w.readInConfig (fileSetup w r v o) with
    | some err => exact ⟨[], by simp⟩
    | none =>
      by_cases hw : o.Watch = true
      · simp only [hw, if_true, fileWatch]
        cases getWatchHandler r o with
        | none => exact ⟨[Call.WatchConfig], by simp [Call.isWatch]⟩
        | some fn =>
          exact ⟨[Call.WatchConfig, Call.OnConfigChange fn], by simp [Call.isWatch]⟩
      · exact ⟨[], by simp [hw]⟩

/-- C17 in the two modes: with `MY_TEST_CONFIG_FILE` naming `./test.yaml` the store gets
that file only; without it, the two default directories, then "test" and "yaml". -/
theorem file_loader_mode_witness :
    fileSetup testWorld testRegistry [] { ConfigOption.zero with Name := "test" }
      = [Call.SetConfigFile "./test.yaml"] ∧
    fileSetup testWorld Registry.zero [] { ConfigOption.zero with Name := "test" }
      = [Call.AddConfigPath "/srv/app", Call.AddConfigPath "/srv/app/config",
         Call.SetConfigName "test", Call.SetConfigType "yaml"] :=
  ⟨(((file_loader_mode testWorld testRegistry []
        { ConfigOption.zero with Name := "test" }).1 (by decide)).1).trans (by decide),
   ((file_loader_mode testWorld Registry.zero []
        { ConfigOption.zero with Name := "test" }).2.1 (by decide)).trans (by decide)⟩

/-- The result of the registration call of `remoteProvider` on the store `v`. -/
theorem remoteProvider_error (w : World) (r : Registry) (v : Viper) (o : ConfigOption) :
    ((remoteProvider w r v o).2 = none ↔
      (if o.SecretKey ≠ "" then
          w.addSecureRemoteProvider v o.Provider o.EndPoint (getConfigFile w r o) o.SecretKey
        else w.addRemoteProvider v o.Provider o.EndPoint (getConfigFile w r o)) = none ∧
      w.readRemoteConfig
        (v ++ [remoteRegistration w r o, Call.SetConfigType (getConfigType r o)]) = none) ∧
    (remoteProvider w r v o).1.countP Call.isWatch =
      v.countP Call.isWatch +
        (if (remoteProvider w r v o).2 = none ∧ o.Watch = true then 1 else 0) ∧
    (remoteProvider w r v o).1.countP Call.isGoRemoteWatch =
      v.countP Call.isGoRemoteWatch +
        (if (remoteProvider w r v o).2 = none ∧ o.Watch = true then 1 else 0) := by
  by_cases hs : o.SecretKey = ""
  · simp only [remoteProvider, remoteRegistration, remoteWatch, hs, ne_eq, not_true_eq_false,
      if_false]
    cases w.addRemoteProvider v o.Provider o.EndPoint (getConfigFile w r o) with
    | some err =>
      simp [List.countP_append, List.countP_cons, Call.isWatch, Call.isGoRemoteWatch]
    | none =>
      simp only [List.append_assoc, List.singleton_append]
      cases w.readRemoteConfig (v ++ [Call.AddRemoteProvider o.Provider o.EndPoint
          (getConfigFile w r o), Call.SetConfigType (getConfigType r o)]) with
      | some err =>
        simp [List.countP_append, List.countP_cons, Call.isWatch, Call.isGoRemoteWatch]
      | none =>
        by_cases hw : o.Watch = true <;>
          simp [hw, List.countP_append, List.countP_cons, Call.isWatch,
            Call.isGoRemoteWatch]
  · simp only [remoteProvider, remoteRegistration, remoteWatch, hs, ne_eq, not_false_eq_true,
      if_true]
    cases w.addSecureRemoteProvider v o.Provider o.EndPoint (getConfigFile w r o)
        o.SecretKey with
    | some err =>
      simp [List.countP_append, List.countP_cons, Call.isWatch, Call.isGoRemoteWatch]
    | none =>
      simp only [List.append_assoc, List.singleton_append]
      cases w.readRemoteConfig (v ++ [Call.AddSecureRemoteProvider o.Provider o.EndPoint
          (getConfigFile w r o) o.SecretKey, Call.SetConfigType (getConfigType r o)]) with
      | some err =>
        simp [List.countP_append, List.countP_cons, Call.isWatch, Call.isGoRemoteWatch]
      | none =>
        by_cases hw : o.Watch = true <;>
          simp [hw, List.countP_append, List.countP_cons, Call.isWatch,
            Call.isGoRemoteWatch]

/-- The file loader succeeds exactly when the store's read does, and arms the file watch
exactly when it succeeds and `Watch` is set. -/
theorem fileProvider_error (w : World) (r : Registry) (v : Viper) (o : ConfigOption) :
    ((fileProvider w r v o).2 = none ↔ w.readInConfig (fileSetup w r v o) = none) ∧
    (fileProvider w r v o).1.count Call.WatchConfig =
      (fileSetup w r v o).count Call.WatchConfig +
        (if (fileProvider w r v o).2 = none ∧ o.Watch = true then 1 else 0) ∧
    ((fileProvider w r v o).2 ≠ none →
      (fileProvider w r v o).1.countP Call.isWatch = (fileSetup w r v o).countP Call.isWatch) := by
  rcases hr : w.readInConfig (fileSetup w r v o) with _ | err
  · by_cases hw : o.Watch = true
    · rcases hh : getWatchHandler r o with _ | fn <;>
        simp [fileProvider, fileWatch, hr, hw, hh, List.count_append, List.count_cons]
    · simp [fileProvider, hr, hw, List.count_append, List.count_cons]
  · simp [fileProvider, hr, List.countP_append, List.countP_cons, Call.isWatch,
      List.count_append]

/-- Setting the store up for a file read arms no file watch. -/
theorem fileSetup_count_WatchConfig (w : World) (r : Registry) (v : Viper)
    (o : ConfigOption) :
    (fileSetup w r v o).count Call.WatchConfig = v.count Call.WatchConfig := by
  have hp : ∀ l : List String, (l.map Call.AddConfigPath).count Call.WatchConfig = 0 := by
    intro l
    induction l with
    | nil => rfl
    | cons s l ih => simp [List.count_cons, ih]
  rw [fileSetup_eq]
  by_cases h : getConfigFile w r o = "" <;>
    simp [h, List.count_append, List.count_cons, hp]

/-- C18: a watch is armed only after a successful load and only on request.  The file
loader succeeds exactly when the store's read does, and calls `WatchConfig` (once)
exactly when it succeeded and `Watch` is set; the remote loader succeeds exactly when
the registration and the remote read both do, and starts its goroutine (once) exactly
when it succeeded and `Watch` is set; a loader that fails adds no watch call. -/
theorem watch_armed_iff (w : World) (r : Registry) (v : Viper) (o : ConfigOption) :
    ((fileProvider w r v o).2 = none ↔ w.readInConfig (fileSetup w r v o) = none) ∧
    ((fileProvider w r v o).1.count Call.WatchConfig =
      v.count Call.WatchConfig +
        (if (fileProvider w r v o).2 = none ∧ o.Watch = true then 1 else 0)) ∧
    ((fileProvider w r v o).2 ≠ none →
      (fileProvider w r v o).1.countP Call.isWatch = v.countP Call.isWatch) ∧
    ((remoteProvider w r v o).2 = none ↔
      (if o.SecretKey ≠ "" then
          w.addSecureRemoteProvider v o.Provider o.EndPoint (getConfigFile w r o) o.SecretKey
        else w.addRemoteProvider v o.Provider o.EndPoint (getConfigFile w r o)) = none ∧
      w.readRemoteConfig
        (v ++ [remoteRegistration w r o, Call.SetConfigType (getConfigType r o)]) = none) ∧
    ((remoteProvider w r v o).1.countP Call.isGoRemoteWatch =
      v.countP Call.isGoRemoteWatch +
        (if (remoteProvider w r v o).2 = none ∧ o.Watch = true then 1 else 0)) ∧
    ((remoteProvider w r v o).2 ≠ none →
      (remoteProvider w r v o).1.countP Call.isWatch = v.countP Call.isWatch) := by
  obtain ⟨hf1, hf2, hf3⟩ := fileProvider_error w r v o
  obtain ⟨hr1, hr2, hr3⟩ := remoteProvider_error w r v o
  refine ⟨hf1, ?_, ?_, hr1, hr3, ?_⟩
  · rw [hf2, fileSetup_count_WatchConfig]
  · intro h
    rw [hf3 h, fileSetup_countP_isWatch]
  · intro h
    rw [hr2]
    simp [h]

/-- C18 on failing loads that ask for a watch: `New()` finds no `config.yaml`, the remote
key is absent, and neither store has a watch call; the load of `test.yaml` succeeds and
arms the file watch. -/
theorem watch_armed_iff_witness :
    (fileProvider testWorld Registry.zero [] { ConfigOption.zero with Watch := true }).1.countP
      Call.isWatch = 0 ∧
    (remoteProvider testWorld Registry.zero [] { etcdOption with Watch := true }).1.countP
      Call.isWatch = 0 ∧
    (fileProvider testWorld Registry.zero []
      { ConfigOption.zero with Name := "test", Watch := true }).1 =
      [Call.AddConfigPath "/srv/app", Call.AddConfigPath "/srv/app/config",
        Call.SetConfigName "test", Call.SetConfigType "yaml", Call.ReadInConfig,
        Call.WatchConfig] :=
  ⟨(watch_armed_iff testWorld Registry.zero []
      { ConfigOption.zero with Watch := true }).2.2.1 (by decide),
   (watch_armed_iff testWorld Registry.zero []
      { etcdOption with Watch := true }).2.2.2.2.2 (by decide),
   by decide⟩

/-- C19: each setter leaves the six fields of the registry that are not its own as they
were. -/
theorem setter_frame (r : Registry) (s : String) (ps : List String) (h : Option Handler) :
    ((SetEnvFileKey s r).configName = r.configName ∧
     (SetEnvFileKey s r).configType = r.configType ∧
     (SetEnvFileKey s r).configFile = r.configFile ∧
     (SetEnvFileKey s r).searchPath = r.searchPath ∧
     (SetEnvFileKey s r).envPrefix = r.envPrefix ∧
     (SetEnvFileKey s r).watchHandler = r.watchHandler) ∧
    ((SetConfigName s r).envFileKey = r.envFileKey ∧
     (SetConfigName s r).configType = r.configType ∧
     (SetConfigName s r).configFile = r.configFile ∧
     (SetConfigName s r).searchPath = r.searchPath ∧
     (SetConfigName s r).envPrefix = r.envPrefix ∧
     (SetConfigName s r).watchHandler = r.watchHandler) ∧
    ((SetConfigType s r).envFileKey = r.envFileKey ∧
     (SetConfigType s r).configName = r.configName ∧
     (SetConfigType s r).configFile = r.configFile ∧
     (SetConfigType s r).searchPath = r.searchPath ∧
     (SetConfigType s r).envPrefix = r.envPrefix ∧
     (SetConfigType s r).watchHandler = r.watchHandler) ∧
    ((SetConfigFile s r).envFileKey = r.envFileKey ∧
     (SetConfigFile s r).configName = r.configName ∧
     (SetConfigFile s r).configType = r.configType ∧
     (SetConfigFile s r).searchPath = r.searchPath ∧
     (SetConfigFile s r).envPrefix = r.envPrefix ∧
     (SetConfigFile s r).watchHandler = r.watchHandler) ∧
    ((SetSearchPath ps r).envFileKey = r.envFileKey ∧
     (SetSearchPath ps r).configName = r.configName ∧
     (SetSearchPath ps r).configType = r.configType ∧
     (SetSearchPath ps r).configFile = r.configFile ∧
     (SetSearchPath ps r).envPrefix = r.envPrefix ∧
     (SetSearchPath ps r).watchHandler = r.watchHandler) ∧
    ((SetEnvPrefix s r).envFileKey = r.envFileKey ∧
     (SetEnvPrefix s r).configName = r.configName ∧
     (SetEnvPrefix s r).configType = r.configType ∧
     (SetEnvPrefix s r).configFile = r.configFile ∧
     (SetEnvPrefix s r).searchPath = r.searchPath ∧
     (SetEnvPrefix s r).watchHandler = r.watchHandler) ∧
    ((SetWatchHandler h r).envFileKey = r.envFileKey ∧
     (SetWatchHandler h r).configName = r.configName ∧
     (SetWatchHandler h r).configType = r.configType ∧
     (SetWatchHandler h r).configFile = r.configFile ∧
     (SetWatchHandler h r).searchPath = r.searchPath ∧
     (SetWatchHandler h r).envPrefix = r.envPrefix) := by
  refine ⟨?_, ?_, ?_, ?_, ?_, ?_, ?_⟩
  · unfold SetEnvFileKey; split <;> simp
  · unfold SetConfigName; split <;> simp
  · unfold SetConfigType; split <;> simp
  · unfold SetConfigFile; split <;> simp
  · unfold SetSearchPath; split <;> simp
  · unfold SetEnvPrefix; split <;> simp
  · unfold SetWatchHandler; split <;> simp

/-- The store a successful watched file load leaves: the set-up, the read, the armed
watch, the registered function when there is a handler, then the calls of `env`. -/
theorem New_watched_store (w : World) (r : Registry) (o : ConfigOption)
    (rest : List (Option ConfigOption)) (s : Viper)
    (hsel : selectLoader w o = Loader.file) (hw : o.Watch = true)
    (hnew : New w r (some o :: rest) = (some s, none)) :
    s = env (fileWatch r (fileSetup w r Viper.new o ++ [Call.ReadInConfig]) o) o := by
  rw [New_eq_afterLoad, hsel] at hnew
  simp only [Loader.run, fileProvider, afterLoad] at hnew
  rcases hr : w.readInConfig (fileSetup w r Viper.new o) with _ | err
  · simp only [hr, hw, if_true, Prod.mk.injEq, Option.some.injEq, and_true] at hnew
    exact hnew.symm
  · simp [hr] at hnew

/-- Setting the store up for a file read registers no change callback. -/
theorem fileSetup_no_callback (w : World) (r : Registry) (o : ConfigOption) :
    ∀ c ∈ fileSetup w r Viper.new o, c.isOnConfigChange = false := by
  intro c hc
  rw [fileSetup_eq] at hc
  by_cases h : getConfigFile w r o = ""
  · simp [h, Viper.new] at hc
    rcases hc with ⟨a, _, rfl⟩ | rfl | rfl <;> rfl
  · simp [h, Viper.new] at hc
    subst hc
    rfl

/-- A change on a store whose last calls are the armed watch, the registration for `fn`
and then no further registration runs the callback for `fn` on that store. -/
theorem storeOnChange_registered (pre post : Viper) (fn : Handler) (ev : FsEvent)
    (hpost : ∀ c ∈ post, c.isOnConfigChange = false) :
    storeOnChange (pre ++ [Call.WatchConfig, Call.OnConfigChange fn] ++ post) ev =
      fileWatchCallback fn (pre ++ [Call.WatchConfig, Call.OnConfigChange fn] ++ post) ev := by
  have hfind : (pre ++ [Call.WatchConfig, Call.OnConfigChange fn] ++ post).reverse.find?
      Call.isOnConfigChange = some (Call.OnConfigChange fn) := by
    have hp : post.reverse.find? Call.isOnConfigChange = none := by
      rw [List.find?_eq_none]
      intro c hc
      simp [hpost c (List.mem_reverse.mp hc)]
    simp [List.find?_append, hp, Call.isOnConfigChange]
  unfold storeOnChange
  rw [hfind]
  simp

/-- A change on a store on which no callback was registered runs nothing. -/
theorem storeOnChange_unregistered (store : Viper) (ev : FsEvent)
    (h : ∀ c ∈ store, c.isOnConfigChange = false) :
    storeOnChange store ev = [] := by
  have hfind : store.reverse.find? Call.isOnConfigChange = none := by
    rw [List.find?_eq_none]
    intro c hc
    simp [h c (List.mem_reverse.mp hc)]
  unfold storeOnChange
  rw [hfind]
  simp

/-- The calls of `env` register no change callback. -/
theorem env_suffix (v : Viper) (o : ConfigOption) :
    ∃ post, env v o = v ++ post ∧ ∀ c ∈ post, c.isOnConfigChange = false := by
  by_cases he : o.Env = true
  · refine ⟨[Call.AutomaticEnv, Call.SetEnvPrefix o.EnvPrefix], by simp [env, he], ?_⟩
    intro c hc
    simp at hc
    rcases hc with rfl | rfl <;> rfl
  · exact ⟨[], by simp [env, he], by simp⟩

/-- C14: the effective watch handler is the option's `WatchHandler` when that is set and
the registry's `watchHandler` otherwise.  When there is one, `fileWatch` arms the watch
and registers, on the store it is given, the function that calls exactly that handler
once with that store for every event; so on the store `New` returns after a watched
file load, every change event calls the effective handler exactly once, with that
store.  With no effective handler the watch is armed and nothing is called. -/
theorem effective_watch_handler (r : Registry) (o : ConfigOption) :
    (∀ h, o.WatchHandler = some h → getWatchHandler r o = some h) ∧
    (o.WatchHandler = none → getWatchHandler r o = r.watchHandler) ∧
    (∀ fn, getWatchHandler r o = some fn →
      (∀ v : Viper, fileWatch r v o = v ++ [Call.WatchConfig, Call.OnConfigChange fn]) ∧
      (∀ (S : Type) (v : S) (ev : FsEvent),
        fileWatchCallback fn v ev = [WatchStep.Invoke fn v] ∧
        (fileWatchCallback fn v ev).countP WatchStep.isInvoke = 1) ∧
      (∀ (v : Viper) (ev : FsEvent),
        storeOnChange (fileWatch r v o) ev = [WatchStep.Invoke fn (fileWatch r v o)]) ∧
      (∀ (w : World) (rest : List (Option ConfigOption)) (s : Viper),
        selectLoader w o = Loader.file → o.Watch = true →
        New w r (some o :: rest) = (some s, none) →
        ∀ ev : FsEvent,
          storeOnChange s ev = [WatchStep.Invoke fn s] ∧
          (storeOnChange s ev).countP WatchStep.isInvoke = 1)) ∧
    (getWatchHandler r o = none →
      (∀ v : Viper, fileWatch r v o = v ++ [Call.WatchConfig]) ∧
      (∀ (w : World) (rest : List (Option ConfigOption)) (s : Viper),
        selectLoader w o = Loader.file → o.Watch = true →
        New w r (some o :: rest) = (some s, none) →
        ∀ ev : FsEvent, storeOnChange s ev = [])) := by
  refine ⟨?_, ?_, ?_, ?_⟩
  · intro h hh
    simp [getWatchHandler, hh]
  · intro hh
    simp [getWatchHandler, hh]
  · intro fn hfn
    have hfw : ∀ v : Viper, fileWatch r v o = v ++ [Call.WatchConfig, Call.OnConfigChange fn] := by
      intro v
      simp [fileWatch, hfn]
    refine ⟨hfw, fun S v ev => ⟨rfl, rfl⟩, ?_, ?_⟩
    · intro v ev
      have h := storeOnChange_registered v [] fn ev (by simp)
      simp only [List.append_nil] at h
      rw [hfw, h]
      rfl
    · intro w rest s hsel hw hnew ev
      have hs := New_watched_store w r o rest s hsel hw hnew
      obtain ⟨post, hpost, hnone⟩ := env_suffix
        (fileWatch r (fileSetup w r Viper.new o ++ [Call.ReadInConfig]) o) o
      rw [hpost, hfw] at hs
      have h := storeOnChange_registered (fileSetup w r Viper.new o ++ [Call.ReadInConfig])
        post fn ev hnone
      rw [← hs] at h
      rw [h]
      exact ⟨rfl, rfl⟩
  · intro hn
    have hfw : ∀ v : Viper, fileWatch r v o = v ++ [Call.WatchConfig] := by
      intro v
      simp [fileWatch, hn]
    refine ⟨hfw, ?_⟩
    intro w rest s hsel hw hnew ev
    have hs := New_watched_store w r o rest s hsel hw hnew
    obtain ⟨post, hpost, hnone⟩ := env_suffix
      (fileWatch r (fileSetup w r Viper.new o ++ [Call.ReadInConfig]) o) o
    rw [hpost, hfw] at hs
    apply storeOnChange_unregistered
    intro c hc
    rw [hs] at hc
    simp only [List.mem_append, List.mem_singleton] at hc
    rcases hc with ((hc | rfl) | rfl) | hc
    · exact fileSetup_no_callback w r o c hc
    · rfl
    · rfl
    · exact hnone c hc

/-- C14 on concrete handlers: the option's handler wins over the registry's, which is
used when the option has none; and after `SetWatchHandler`, on the store `New` returns
for a watched load of `test.yaml`, a change event calls that handler once with that
store. -/
theorem effective_watch_handler_witness :
    getWatchHandler (SetWatchHandler (some ⟨7⟩) Registry.zero)
      { ConfigOption.zero with WatchHandler := some ⟨3⟩ } = some ⟨3⟩ ∧
    getWatchHandler (SetWatchHandler (some ⟨7⟩) Registry.zero) ConfigOption.zero = some ⟨7⟩ ∧
    fileWatch (SetWatchHandler (some ⟨7⟩) Registry.zero) [Call.ReadInConfig] ConfigOption.zero
      = [Call.ReadInConfig, Call.WatchConfig, Call.OnConfigChange ⟨7⟩] ∧
    New testWorld (SetWatchHandler (some ⟨7⟩) Registry.zero) [some watchedOption] =
      (some [Call.AddConfigPath "/srv/app", Call.AddConfigPath "/srv/app/config",
        Call.SetConfigName "test", Call.SetConfigType "yaml", Call.ReadInConfig,
        Call.WatchConfig, Call.OnConfigChange ⟨7⟩], none) ∧
    storeOnChange [Call.AddConfigPath "/srv/app", Call.AddConfigPath "/srv/app/config",
        Call.SetConfigName "test", Call.SetConfigType "yaml", Call.ReadInConfig,
        Call.WatchConfig, Call.OnConfigChange ⟨7⟩] ⟨"test.yaml", 2⟩ =
      [WatchStep.Invoke ⟨7⟩ [Call.AddConfigPath "/srv/app",
        Call.AddConfigPath "/srv/app/config", Call.SetConfigName "test",
        Call.SetConfigType "yaml", Call.ReadInConfig, Call.WatchConfig,
        Call.OnConfigChange ⟨7⟩]] :=
  ⟨(effective_watch_handler (SetWatchHandler (some ⟨7⟩) Registry.zero)
      { ConfigOption.zero with WatchHandler := some ⟨3⟩ }).1 ⟨3⟩ rfl,
   ((effective_watch_handler (SetWatchHandler (some ⟨7⟩) Registry.zero)
      ConfigOption.zero).2.1 rfl).trans (by decide),
   ((effective_watch_handler (SetWatchHandler (some ⟨7⟩) Registry.zero)
      ConfigOption.zero).2.2.1 ⟨7⟩ (by decide)).1 [Call.ReadInConfig],
   by decide,
   ((((effective_watch_handler (SetWatchHandler (some ⟨7⟩) Registry.zero)
      watchedOption).2.2.1 ⟨7⟩ (by decide)).2.2.2 testWorld [] _ (by decide) (by decide)
      (by decide)) ⟨"test.yaml", 2⟩).1⟩

end Config
